import Mathlib

/-!
Verification development for the WLIP (WeatherLinkIP) emulator
(`wlip_emulator.py`, V89).  The Python source is shallowly embedded:

* byte buffers are `List Nat` (each entry intended `< 256`);
* Python ints/floats carried by observation maps are modelled as `Int`
  (all claims under study are about integer-valued observations);
* `struct.pack_into` / `bytearray` item assignment are fallible in Python
  (they raise `struct.error` / `ValueError` on out-of-range values), so the
  corresponding helpers return `Option`, and encoders that can raise return
  `Option (List Nat)` (`none` = the Python code raises instead of returning);
* `time.localtime` is an external C function; it is passed in as an explicit
  argument of type `Int → LocalTime` (the broken-down fields it returns);
* `time.time()` is passed in as an explicit `now : Int` argument.
-/

namespace WLIP

/-- The Davis CCITT CRC-16 table, transcribed from `CRC_TABLE` in
`wlip_emulator.py`. -/
def CRC_TABLE : List Nat := [
  0x0000, 0x1021, 0x2042, 0x3063, 0x4084, 0x50a5, 0x60c6, 0x70e7,
  0x8108, 0x9129, 0xa14a, 0xb16b, 0xc18c, 0xd1ad, 0xe1ce, 0xf1ef,
  0x1231, 0x0210, 0x3273, 0x2252, 0x52b5, 0x4294, 0x72f7, 0x62d6,
  0x9339, 0x8318, 0xb37b, 0xa35a, 0xd3bd, 0xc39c, 0xf3ff, 0xe3de,
  0x2462, 0x3443, 0x0420, 0x1401, 0x64e6, 0x74c7, 0x44a4, 0x5485,
  0xa56a, 0xb54b, 0x8528, 0x9509, 0xe5ee, 0xf5cf, 0xc5ac, 0xd58d,
  0x3653, 0x2672, 0x1611, 0x0630, 0x76d7, 0x66f6, 0x5695, 0x46b4,
  0xb75b, 0xa77a, 0x9719, 0x8738, 0xf7df, 0xe7fe, 0xd79d, 0xc7bc,
  0x48c4, 0x58e5, 0x6886, 0x78a7, 0x0840, 0x1861, 0x2802, 0x3823,
  0xc9cc, 0xd9ed, 0xe98e, 0xf9af, 0x8948, 0x9969, 0xa90a, 0xb92b,
  0x5af5, 0x4ad4, 0x7ab7, 0x6a96, 0x1a71, 0x0a50, 0x3a33, 0x2a12,
  0xdbfd, 0xcbdc, 0xfbbf, 0xeb9e, 0x9b79, 0x8b58, 0xbb3b, 0xab1a,
  0x6ca6, 0x7c87, 0x4ce4, 0x5cc5, 0x2c22, 0x3c03, 0x0c60, 0x1c41,
  0xedae, 0xfd8f, 0xcdec, 0xddcd, 0xad2a, 0xbd0b, 0x8d68, 0x9d49,
  0x7e97, 0x6eb6, 0x5ed5, 0x4ef4, 0x3e13, 0x2e32, 0x1e51, 0x0e70,
  0xff9f, 0xefbe, 0xdfdd, 0xcffc, 0xbf1b, 0xaf3a, 0x9f59, 0x8f78,
  0x9188, 0x81a9, 0xb1ca, 0xa1eb, 0xd10c, 0xc12d, 0xf14e, 0xe16f,
  0x1080, 0x00a1, 0x30c2, 0x20e3, 0x5004, 0x4025, 0x7046, 0x6067,
  0x83b9, 0x9398, 0xa3fb, 0xb3da, 0xc33d, 0xd31c, 0xe37f, 0xf35e,
  0x02b1, 0x1290, 0x22f3, 0x32d2, 0x4235, 0x5214, 0x6277, 0x7256,
  0xb5ea, 0xa5cb, 0x95a8, 0x8589, 0xf56e, 0xe54f, 0xd52c, 0xc50d,
  0x34e2, 0x24c3, 0x14a0, 0x0481, 0x7466, 0x6447, 0x5424, 0x4405,
  0xa7db, 0xb7fa, 0x8799, 0x97b8, 0xe75f, 0xf77e, 0xc71d, 0xd73c,
  0x26d3, 0x36f2, 0x0691, 0x16b0, 0x6657, 0x7676, 0x4615, 0x5634,
  0xd94c, 0xc96d, 0xf90e, 0xe92f, 0x99c8, 0x89e9, 0xb98a, 0xa9ab,
  0x5844, 0x4865, 0x7806, 0x6827, 0x18c0, 0x08e1, 0x3882, 0x28a3,
  0xcb7d, 0xdb5c, 0xeb3f, 0xfb1e, 0x8bf9, 0x9bd8, 0xabbb, 0xbb9a,
  0x4a75, 0x5a54, 0x6a37, 0x7a16, 0x0af1, 0x1ad0, 0x2ab3, 0x3a92,
  0xfd2e, 0xed0f, 0xdd6c, 0xcd4d, 0xbdaa, 0xad8b, 0x9de8, 0x8dc9,
  0x7c26, 0x6c07, 0x5c64, 0x4c45, 0x3ca2, 0x2c83, 0x1ce0, 0x0cc1,
  0xef1f, 0xff3e, 0xcf5d, 0xdf7c, 0xaf9b, 0xbfba, 0x8fd9, 0x9ff8,
  0x6e17, 0x7e36, 0x4e55, 0x5e74, 0x2e93, 0x3eb2, 0x0ed1, 0x1ef0]

/-- `crc16(data)`: CRC ← ((CRC << 8) XOR table[((CRC >> 8) XOR b) AND 0xFF])
AND 0xFFFF, starting from 0 (function `crc16` in the source). -/
def crc16 (data : List Nat) : Nat :=
  data.foldl
    (fun crc b => ((crc <<< 8) ^^^ CRC_TABLE.getD (((crc >>> 8) ^^^ b) &&& 0xFF) 0) &&& 0xFFFF)
    0

/-- `struct.pack('>H', c)` for the CRC: two big-endian bytes.  Every CRC fed
to it satisfies `crc16 _ < 0x10000` (the fold masks with `0xFFFF`), so the
Python call never raises and is modelled total. -/
def crcBytes (c : Nat) : List Nat := [c / 256, c % 256]

/-- `struct.pack_into('<H', _, _, v)`: two little-endian bytes; raises
(`none`) unless `0 ≤ v < 0x10000`. -/
def packU16LE (v : Int) : Option (Nat × Nat) :=
  if 0 ≤ v ∧ v < 65536 then some (v.toNat % 256, v.toNat / 256) else none

/-- `struct.pack_into('<h', _, _, v)`: two little-endian two's-complement
bytes; raises (`none`) unless `-0x8000 ≤ v < 0x8000`. -/
def packI16LE (v : Int) : Option (Nat × Nat) :=
  if -32768 ≤ v ∧ v < 32768 then
    some ((v % 65536).toNat % 256, (v % 65536).toNat / 256)
  else none

/-- `bytearray` item assignment / `bytes([v])`: raises (`none`) unless
`0 ≤ v < 256`. -/
def setByte (v : Int) : Option Nat :=
  if 0 ≤ v ∧ v < 256 then some v.toNat else none

/-- A normalized (US-units) observation / archive record: the recognized
keys of the WeeWX packet dict, each optional (`none` = key absent).  Unit
conversion (`weewx.units.to_std_system`) is external to the repository, so
the embedding works on records already in US units, which the converter
leaves unchanged.  Numeric values are modelled as integers. -/
structure Obs where
  dateTime       : Option Int := none
  outTemp        : Option Int := none
  inTemp         : Option Int := none
  barometer      : Option Int := none
  barometerTrend : Option Int := none
  windSpeed      : Option Int := none
  windGust       : Option Int := none
  windDir        : Option Int := none
  rainRate       : Option Int := none
  rain           : Option Int := none
  dayRain        : Option Int := none
  monthRain      : Option Int := none
  yearRain       : Option Int := none
  outHumidity    : Option Int := none
  inHumidity     : Option Int := none
  UV             : Option Int := none
  radiation      : Option Int := none
  ET             : Option Int := none
  forecastRule   : Option Int := none
  sunrise        : Option Int := none
  sunset         : Option Int := none
  dewpoint       : Option Int := none
  windchill      : Option Int := none
  heatindex      : Option Int := none
deriving Repr, DecidableEq

/-- `get_val(key, f, 0)` in the LOOP/LOOP2 encoders: the packet value, or the
fallback 0 when the key is missing. -/
def getVal (v : Option Int) : Int := v.getD 0

/-- Broken-down local time as returned by `time.localtime` /
`datetime.datetime.now()` (fields of `struct_time` used by the source). -/
structure LocalTime where
  tm_year : Int := 2000
  tm_mon  : Int := 1
  tm_mday : Int := 1
  tm_hour : Int := 0
  tm_min  : Int := 0
  tm_sec  : Int := 0
deriving Repr, DecidableEq

/-- `TREND_MAP.get(bar_trend, 0)`: {-2: 196, -1: 236, 0: 0, 1: 20, 2: 60},
default 0. -/
def trendByte (t : Int) : Nat :=
  if t = -2 then 196 else if t = -1 then 236 else if t = 0 then 0
  else if t = 1 then 20 else if t = 2 then 60 else 0

/-- `to_davis_time(epoch)` in `create_davis_loop_packet`: 0 for a falsy
(zero) epoch, otherwise `hour*100 + minute` of the local time. -/
def toDavisTime (lt : Int → LocalTime) (epoch : Int) : Int :=
  if epoch = 0 then 0 else (lt epoch).tm_hour * 100 + (lt epoch).tm_min

/-- The default observation used when the live-packet cache is empty:
`{'dateTime': int(time.time()), 'usUnits': weewx.US}`. -/
def defaultObs (now : Int) : Obs := { dateTime := some now }

/-- `create_davis_loop_packet` (LOOP, packet type 0).  Returns the 99-byte
buffer, or `none` when the Python code would raise (a scaled field outside
its wire field's range; in Python the first offending write raises, here all
fallible writes are scrutinized at once — the result is `none` in exactly
the same cases).  The 97-byte body is laid out exactly as the source's
sequence of non-overlapping writes into `bytearray(99)`; the CRC of bytes
0–96 is appended big-endian. -/
def create_davis_loop_packet (pOpt : Option Obs) (now : Int)
    (lt : Int → LocalTime) : Option (List Nat) :=
  let p := pOpt.getD (defaultObs now)
  let outTemp := getVal p.outTemp
  let inTemp := getVal p.inTemp
  let barometer := getVal p.barometer
  let windSpeed := getVal p.windSpeed
  let windDir := getVal p.windDir
  let rainRate := getVal p.rainRate
  let outHumidity := getVal p.outHumidity
  let inHumidity := getVal p.inHumidity
  let dayRain := getVal p.dayRain
  let monthRain := getVal p.monthRain
  let yearRain := getVal p.yearRain
  let uv := getVal p.UV
  let radiation := getVal p.radiation
  let forecast_rule := getVal p.forecastRule
  let bar_trend := getVal p.barometerTrend
  let sunrise_davis := toDavisTime lt (getVal p.sunrise)
  let sunset_davis := toDavisTime lt (getVal p.sunset)
  let trend := trendByte bar_trend
  match packU16LE (if barometer ≠ 0 then barometer * 1000 else 29920),
        packI16LE (if inTemp ≠ 0 then inTemp * 10 else 0),
        setByte (if inHumidity ≠ 0 then inHumidity else 0),
        packI16LE (if outTemp ≠ 0 then outTemp * 10 else 0),
        setByte (if windSpeed ≠ 0 then windSpeed else 0),
        packU16LE windDir,
        setByte (if outHumidity ≠ 0 then outHumidity else 0),
        packU16LE (if rainRate ≠ 0 then rainRate * 100 else 0),
        setByte (if uv ≤ 25 then uv * 10 else 255),
        packU16LE radiation,
        packU16LE (if dayRain ≠ 0 then dayRain * 100 else 0),
        packU16LE (if monthRain ≠ 0 then monthRain * 100 else 0),
        packU16LE (if yearRain ≠ 0 then yearRain * 100 else 0),
        setByte forecast_rule,
        packU16LE sunrise_davis,
        packU16LE sunset_davis with
  | some bar, some it, some ihb, some ot, some wsb, some wd, some ohb, some rr,
    some uvb, some rad, some dr, some mr, some yr, some frb, some sr, some ss =>
    let body : List Nat :=
      [76, 79, 79,                                  -- 0-2   "LOO"
       trend,                                       -- 3     bar trend
       0,                                           -- 4     packet type 0
       0, 0,                                        -- 5-6   next record
       bar.1, bar.2,                                -- 7-8   barometer
       it.1, it.2,                                  -- 9-10  inside temp
       ihb,                                         -- 11    inside humidity
       ot.1, ot.2,                                  -- 12-13 outside temp
       wsb, wsb,                                    -- 14-15 wind speed, 10-min avg
       wd.1, wd.2,                                  -- 16-17 wind direction
       255, 255, 255, 255, 255, 255, 255,           -- 18-24 extra temps
       255, 255, 255, 255,                          -- 25-28 soil temps
       255, 255, 255, 255,                          -- 29-32 leaf temps
       ohb,                                         -- 33    outside humidity
       255, 255, 255, 255, 255, 255, 255,           -- 34-40 extra humidities
       rr.1, rr.2,                                  -- 41-42 rain rate
       uvb,                                         -- 43    UV
       rad.1, rad.2,                                -- 44-45 solar radiation
       0, 0,                                        -- 46-47 storm rain
       0, 0,                                        -- 48-49 storm start date
       dr.1, dr.2, mr.1, mr.2, yr.1, yr.2,          -- 50-55 day/month/year rain
       0, 0, 0, 0, 0, 0,                            -- 56-61 day/month/year ET
       255, 255, 255, 255,                          -- 62-65 soil moistures
       255, 255, 255, 255,                          -- 66-69 leaf wetnesses
       0, 0, 0, 0, 0, 0, 0, 0,
       0, 0, 0, 0, 0, 0, 0, 0,                      -- 70-85 alarms
       0,                                           -- 86    transmitter battery
       0, 0,                                        -- 87-88 console battery
       0,                                           -- 89    forecast icon
       frb,                                         -- 90    forecast rule
       sr.1, sr.2, ss.1, ss.2,                      -- 91-94 sunrise/sunset
       10, 13]                                      -- 95-96 terminators
    some (body ++ crcBytes (crc16 body))
  | _, _, _, _, _, _, _, _, _, _, _, _, _, _, _, _ => none

/-- `create_davis_loop2_packet` (LOOP2, packet type 1), same conventions as
`create_davis_loop_packet`. -/
def create_davis_loop2_packet (pOpt : Option Obs) (now : Int) : Option (List Nat) :=
  let p := pOpt.getD (defaultObs now)
  let outTemp := getVal p.outTemp
  let inTemp := getVal p.inTemp
  let barometer := getVal p.barometer
  let windSpeed := getVal p.windSpeed
  let windDir := getVal p.windDir
  let rainRate := getVal p.rainRate
  let outHumidity := getVal p.outHumidity
  let inHumidity := getVal p.inHumidity
  let dayRain := getVal p.dayRain
  let uv := getVal p.UV
  let radiation := getVal p.radiation
  let bar_trend := getVal p.barometerTrend
  let dewpoint := getVal p.dewpoint
  let windchill := getVal p.windchill
  let heatindex := getVal p.heatindex
  let trend := trendByte bar_trend
  match packU16LE (if barometer ≠ 0 then barometer * 1000 else 29920),
        packI16LE (if inTemp ≠ 0 then inTemp * 10 else 0),
        setByte (if inHumidity ≠ 0 then inHumidity else 0),
        packI16LE (if outTemp ≠ 0 then outTemp * 10 else 0),
        setByte (if windSpeed ≠ 0 then windSpeed else 0),
        packU16LE windDir,
        packU16LE (if windSpeed ≠ 0 then windSpeed * 10 else 0),
        packI16LE (if dewpoint ≠ 0 then dewpoint else 255),
        setByte (if outHumidity ≠ 0 then outHumidity else 0),
        packI16LE (if heatindex ≠ 0 then heatindex else 255),
        packI16LE (if windchill ≠ 0 then windchill else 255),
        packU16LE (if rainRate ≠ 0 then rainRate * 100 else 0),
        setByte (if uv ≤ 25 then uv * 10 else 255),
        packU16LE radiation,
        packU16LE (if dayRain ≠ 0 then dayRain * 100 else 0) with
  | some bar, some it, some ihb, some ot, some wsb, some wd, some ws10, some dp,
    some ohb, some hi, some wc, some rr, some uvb, some rad, some dr =>
    let body : List Nat :=
      [76, 79, 79,                                  -- 0-2   "LOO"
       trend,                                       -- 3     bar trend
       1,                                           -- 4     packet type 1
       255, 127,                                    -- 5-6   unused (0x7FFF LE)
       bar.1, bar.2,                                -- 7-8   barometer
       it.1, it.2,                                  -- 9-10  inside temp
       ihb,                                         -- 11    inside humidity
       ot.1, ot.2,                                  -- 12-13 outside temp
       wsb,                                         -- 14    wind speed
       255,                                         -- 15    unused
       wd.1, wd.2,                                  -- 16-17 wind direction
       ws10.1, ws10.2,                              -- 18-19 10-min avg wind
       ws10.1, ws10.2,                              -- 20-21 2-min avg wind
       ws10.1, ws10.2,                              -- 22-23 10-min gust
       wd.1, wd.2,                                  -- 24-25 gust direction
       255, 127,                                    -- 26-27 unused (0x7FFF LE)
       255, 127,                                    -- 28-29 unused (0x7FFF LE)
       dp.1, dp.2,                                  -- 30-31 dewpoint
       255,                                         -- 32    unused
       ohb,                                         -- 33    outside humidity
       255,                                         -- 34    unused
       hi.1, hi.2,                                  -- 35-36 heat index
       wc.1, wc.2,                                  -- 37-38 wind chill
       255, 0,                                      -- 39-40 THSW (pack '<h' 255)
       rr.1, rr.2,                                  -- 41-42 rain rate
       uvb,                                         -- 43    UV
       rad.1, rad.2,                                -- 44-45 solar radiation
       0, 0,                                        -- 46-47 storm rain
       0, 0,                                        -- 48-49 storm start date
       dr.1, dr.2,                                  -- 50-51 day rain
       0, 0, 0, 0,                                  -- 52-55 15-min, hour rain
       0, 0,                                        -- 56-57 day ET
       0, 0,                                        -- 58-59 24-hr rain
       2,                                           -- 60    bar reduction method
       0, 0, 0, 0,                                  -- 61-64 bar offset/calibration
       bar.1, bar.2,                                -- 65-66 raw barometer
       bar.1, bar.2,                                -- 67-68 absolute barometer
       bar.1, bar.2,                                -- 69-70 altimeter setting
       255, 255, 255, 255, 255, 255, 255, 255,
       255, 255, 255, 255, 255, 255, 255, 255,
       255, 255, 255, 255, 255, 255, 255, 255,      -- 71-94 unused
       10, 13]                                      -- 95-96 terminators
    some (body ++ crcBytes (crc16 body))
  | _, _, _, _, _, _, _, _, _, _, _, _, _, _, _ => none

/-- The local helper `get(key, scale, offset, dash)` of
`pack_archive_record` (`offset` is 0 at every call site): the dash value
when the key is missing, otherwise `int(val * scale)`. -/
def getScaled (v : Option Int) (scale dash : Int) : Int :=
  match v with
  | none => dash
  | some x => x * scale

/-- The wind-direction code of `pack_archive_record`:
`int((wind_dir / 22.5) + 0.5) % 16` for a present direction (the float
expression `wind_dir/22.5 + 0.5` is written as the exact rational
`(4*wind_dir + 45)/90`, truncated toward zero as Python `int()` does),
255 for a missing one. -/
def dirCode (wd : Option Int) : Int :=
  match wd with
  | none => 255
  | some w => (Int.tdiv (4 * w + 45) 90) % 16

/-- `pack_archive_record(record)`: the 52-byte Rev B archive record, or
`none` where the Python writes would raise.  `t` stands for
`time.localtime(record['dateTime'])`; unit conversion to US units is
external (`weewx.units`), so `r` is the already-normalized record. -/
def pack_archive_record (r : Obs) (t : LocalTime) : Option (List Nat) :=
  let davis_date := t.tm_mday + t.tm_mon * 32 + (t.tm_year - 2000) * 512
  let davis_time := t.tm_hour * 100 + t.tm_min
  match packU16LE davis_date,
        packU16LE davis_time,
        packI16LE (getScaled r.outTemp 10 32767),
        packI16LE (getScaled r.outTemp 10 (-32768)),
        packI16LE (getScaled r.outTemp 10 32767),
        packU16LE (getScaled r.rain 100 0),
        packU16LE (getScaled r.rainRate 100 0),
        packU16LE (if getScaled r.barometer 1000 0 = 0 then 29920
                   else getScaled r.barometer 1000 0),
        packU16LE (getScaled r.radiation 1 32767),
        packI16LE (getScaled r.inTemp 10 32767),
        setByte (getScaled r.inHumidity 1 255),
        setByte (getScaled r.outHumidity 1 255),
        setByte (getScaled r.windSpeed 1 255),
        setByte (getScaled r.windGust 1 0),
        setByte (dirCode r.windDir),
        setByte (getScaled r.UV 10 255),
        setByte (getScaled r.ET 1000 0),
        packU16LE (getScaled r.radiation 1 0),
        setByte (getScaled r.UV 10 0),
        setByte (getScaled r.forecastRule 1 193) with
  | some dts, some tms, some otA, some otH, some otL, some rn, some rrr,
    some bar, some rad, some itm, some ihb, some ohb, some wsb, some wgb,
    some dcb, some uvb, some etb, some hsol, some huv, some frb =>
    some [dts.1, dts.2,                -- 0-1   Davis date (LE)
          tms.1, tms.2,                -- 2-3   Davis time (LE)
          otA.1, otA.2,                -- 4-5   outside temp
          otH.1, otH.2,                -- 6-7   high outside temp
          otL.1, otL.2,                -- 8-9   low outside temp
          rn.1, rn.2,                  -- 10-11 rain
          rrr.1, rrr.2,                -- 12-13 rain rate
          bar.1, bar.2,                -- 14-15 barometer
          rad.1, rad.2,                -- 16-17 solar radiation
          100, 0,                      -- 18-19 wind samples ('<H' 100)
          itm.1, itm.2,                -- 20-21 inside temp
          ihb,                         -- 22    inside humidity
          ohb,                         -- 23    outside humidity
          wsb,                         -- 24    wind speed
          wgb,                         -- 25    wind gust
          dcb, dcb,                    -- 26-27 high/prevailing wind dir
          uvb,                         -- 28    UV
          etb,                         -- 29    ET
          hsol.1, hsol.2,              -- 30-31 high solar
          huv,                         -- 32    high UV
          frb,                         -- 33    forecast rule
          255, 255,                    -- 34-35 leaf temps
          255, 255,                    -- 36-37 leaf wetness
          255, 255, 255, 255,          -- 38-41 soil temps
          0,                           -- 42    record type (Rev B)
          255, 255,                    -- 43-44 extra humidity
          255, 255, 255,               -- 45-47 extra temps
          255, 255, 255, 255]          -- 48-51 soil moisture
  | _, _, _, _, _, _, _, _, _, _, _, _, _, _, _, _, _, _, _, _ => none

/-- `num_pages = int(math.ceil(num_records / 5.0))` in `_download_archive`
(the float ceiling is exact for every count the engine can produce, the
record list being capped at 50 000). -/
def num_pages (numRecords : Nat) : Nat := (numRecords + 4) / 5

/-- Slot `i` (0–4) of page `idx`: the packed record at index
`idx*5 + i` when it exists, else 52 bytes of 0xFF padding.  `recs` is the
list of packed 52-byte records. -/
def page_slot (recs : List (List Nat)) (idx i : Nat) : List Nat :=
  if idx * 5 + i < recs.length then recs.getD (idx * 5 + i) []
  else List.replicate 52 255

/-- One archive page of `_download_archive`: the sequence byte
`page_idx % 256`, five 52-byte slots, four 0x00 "unused" bytes, then the
big-endian CRC of the preceding 265 bytes. -/
def build_page (recs : List (List Nat)) (idx : Nat) : List Nat :=
  let body := idx % 256 ::
    (page_slot recs idx 0 ++ page_slot recs idx 1 ++ page_slot recs idx 2 ++
     page_slot recs idx 3 ++ page_slot recs idx 4 ++ [0, 0, 0, 0])
  body ++ crcBytes (crc16 body)

/-- The page-count header of `_download_archive`:
`struct.pack('<H', num_pages) + b'\x00\x00'` followed by its big-endian CRC
(`num_pages ≤ 10000 < 0x10000` in the engine, so the pack cannot raise). -/
def dmpaft_header (pages : Nat) : List Nat :=
  let four := [pages % 256, pages / 256 % 256, 0, 0]
  four ++ crcBytes (crc16 four)

/-- The per-page loop of `_download_archive`
(`for page_idx in range(num_pages)`): build and send the page, then
`recv(1)`; a received 0x1B (ESC) breaks, any other received byte continues.
`acks` is the sequence of single bytes the client's acknowledging reads
deliver; exhausting it stands for `recv` raising, which also breaks (after
the page was already sent).  Arguments: remaining ack bytes, current page
index, remaining page count.  Returns the pages actually sent, in order. -/
def send_pages (recs : List (List Nat)) : List Nat → Nat → Nat → List (List Nat)
  | _, _, 0 => []
  | acks, start, n + 1 =>
    let pg := build_page recs start
    match acks with
    | [] => [pg]
    | a :: rest => if a = 27 then [pg] else pg :: send_pages recs rest (start + 1) n

/-- `_download_archive` from the header send onward: send the six header
bytes, read one byte (`firstAck`; `none` stands for a failed read), abort
unless it is 0x06, then run the page loop.  Result: the list of `sendall`
payloads. -/
def download_exchange (recs : List (List Nat)) (numRecords : Nat)
    (firstAck : Option Nat) (acks : List Nat) : List (List Nat) :=
  dmpaft_header (num_pages numRecords) ::
    (if firstAck = some 6 then send_pages recs acks 0 (num_pages numRecords)
     else [])

/-- Gregorian month length, as `datetime.datetime` validates it. -/
def daysInMonth (year month : Nat) : Nat :=
  if month = 2 then
    if year % 4 = 0 ∧ (year % 100 ≠ 0 ∨ year % 400 = 0) then 29 else 28
  else if month = 4 ∨ month = 6 ∨ month = 9 ∨ month = 11 then 30
  else 31

/-- The validity condition of `datetime.datetime(year, month, day, hour,
minute)`; constructing an invalid instant raises `ValueError`.  (The year
check `1 ≤ year ≤ 9999` is omitted: every decoded year lies in
2000–2127.) -/
def validDateTime (year month day hour minute : Nat) : Bool :=
  decide (1 ≤ month ∧ month ≤ 12 ∧ 1 ≤ day ∧ day ≤ daysInMonth year month ∧
    hour ≤ 23 ∧ minute ≤ 59)

/-- The timestamp decode of `handle_dmpaft` once the six bytes were read:
Davis date/time are little-endian 16-bit; the `(0,0)` pair, or any decode
failure (`datetime.datetime` rejecting the calendar values), selects the
hardware-limit timestamp `int(time.time()) − 2560·interval_minutes·60`.
`mk` stands for `time.mktime ∘ .timetuple` (external C library; an
`OverflowError` from it would also fall into the hardware-limit branch, but
no decoded year 2000–2127 overflows it, so `mk` is modelled total). -/
def dmpaft_requested_ts (b : List Nat) (now : Int) (intervalMins : Int)
    (mk : Nat → Nat → Nat → Nat → Nat → Int) : Int :=
  let davis_date := b.getD 0 0 + 256 * b.getD 1 0
  let davis_time := b.getD 2 0 + 256 * b.getD 3 0
  if davis_date = 0 ∧ davis_time = 0 then
    now - 2560 * (intervalMins * 60)
  else
    let day := davis_date &&& 0x1F
    let month := (davis_date >>> 5) &&& 0x0F
    let year := (davis_date >>> 9) + 2000
    let hour := davis_time / 100
    let minute := davis_time % 100
    if validDateTime year month day hour minute then mk year month day hour minute
    else now - 2560 * (intervalMins * 60)

/-- Modelled from the spec: the ArchiveStore
(`weewx.manager.genBatchRecords(startstamp)` is external to this
repository).  Spec §6: "iterate(after_ts) → ordered stream of Observation.
Must yield records with `dateTime > after_ts` in strict ascending timestamp
order." -/
def genBatchRecords (store : List Obs) (startstamp : Int) : List Obs :=
  store.filter (fun r => startstamp < r.dateTime.getD 0)

/-- The record-collection loop of `_download_archive`: append records from
`genBatchRecords(requested_ts + 1)`, breaking once 50 000 are collected. -/
def download_records (store : List Obs) (requested_ts : Int) : List Obs :=
  (genBatchRecords store (requested_ts + 1)).take 50000

/-- The `WeatherLinkEmulator` fields involved in the live-data/watchdog
logic: the live-packet cache (`current_loop_packet`), the publication
wall-clock recorded by `handle_new_loop` (`last_update_time`), and the
configured watchdog settings. -/
structure EmuState where
  current_loop_packet : Option Obs := none
  last_update_time : Int := 0
  max_lag_threshold : Int := 0
  max_lag_action : Int := 0
deriving Repr, DecidableEq

/-- `handle_new_loop(event)`: stores the packet in the cache and records the
publication wall-clock `time.time()`. -/
def handle_new_loop (st : EmuState) (packet : Obs) (now : Int) : EmuState :=
  { st with current_loop_packet := some packet, last_update_time := now }

/-- Outcome of the watchdog check at the top of `handle_loop`: keep
streaming, close the connection (`max_lag_action == 1`), or close and
`os._exit(1)` (`max_lag_action == 2`). -/
inductive WatchdogVerdict where
  | stream
  | disconnect
  | kill
deriving Repr, DecidableEq

/-- The watchdog logic of `handle_loop` (lines 593–640): when
`max_lag_threshold > 0` and a cached packet exists, the lag is
`int(now - p.get('dateTime', 0))` — the packet's own `dateTime`, not
`last_update_time` — and when it exceeds the threshold, action 2 kills,
action 1 disconnects, any other action only logs and keeps streaming. -/
def watchdog_step (st : EmuState) (now : Int) : WatchdogVerdict :=
  if 0 < st.max_lag_threshold then
    match st.current_loop_packet with
    | none => .stream
    | some p =>
      let lag := now - p.dateTime.getD 0
      if st.max_lag_threshold < lag then
        if st.max_lag_action = 2 then .kill
        else if st.max_lag_action = 1 then .disconnect
        else .stream
      else .stream
  else .stream

/-- The LOOP-packet send loop of `handle_loop` (`for i in range(count)`):
before each packet the socket is peeked (`intr i` = a readable byte was
present, ending the stream); an encoder exception also ends the loop with
nothing further sent.  Arguments: remaining iterations, current index. -/
def loop_packets (pkt : Option Obs) (now : Int) (lt : Int → LocalTime)
    (intr : Nat → Bool) : Nat → Nat → List (List Nat)
  | 0, _ => []
  | n + 1, i =>
    if intr i then []
    else
      match create_davis_loop_packet pkt now lt with
      | some b => b :: loop_packets pkt now lt intr n (i + 1)
      | none => []

/-- Everything `handle_loop` sends (as a list of `sendall` payloads): nothing
when the watchdog disconnects or kills, otherwise the ACK `0x06` followed by
the LOOP packets. -/
def handle_loop_sends (st : EmuState) (now : Int) (count : Nat)
    (lt : Int → LocalTime) (intr : Nat → Bool) : List (List Nat) :=
  match watchdog_step st now with
  | .stream => [6] :: loop_packets st.current_loop_packet now lt intr count 0
  | .disconnect => []
  | .kill => []

/-- Python's substring test `needle in haystack` on the decoded command
string. -/
def hasSub (needle : List Char) : List Char → Bool
  | [] => needle.isEmpty
  | c :: t => needle.isPrefixOf (c :: t) || hasSub needle t

/-- Python's substring test `needle in haystack` on the raw byte buffer
(`b'\x12\x4d' in raw_data`). -/
def hasSubB (needle : List Nat) : List Nat → Bool
  | [] => needle.isEmpty
  | c :: t => needle.isPrefixOf (c :: t) || hasSubB needle t

/-- `cmd.split()` — split the command on whitespace runs (accumulator holds
the current word reversed). -/
def wordsAux : List Char → List Char → List (List Char)
  | [], cur => if cur.isEmpty then [] else [cur.reverse]
  | c :: t, cur =>
    if c.isWhitespace then
      if cur.isEmpty then wordsAux t [] else cur.reverse :: wordsAux t []
    else wordsAux t (c :: cur)

/-- `cmd.split()`. -/
def words (l : List Char) : List (List Char) := wordsAux l []

/-- Decimal value of a digit string. -/
def natOfDigits (w : List Char) : Nat :=
  w.foldl (fun a c => a * 10 + (c.toNat - 48)) 0

/-- `_parse_count(cmd, default=1)`: the first all-digit token, 0 coerced to
the default 1. -/
def parse_count (cmd : List Char) : Nat :=
  match (words cmd).find?
      (fun w => !w.isEmpty && w.all (fun c => '0' ≤ c && c ≤ '9')) with
  | some w => if 0 < natOfDigits w then natOfDigits w else 1
  | none => 1

/-- The branch `process_command` selects for a command line: one
constructor per `elif` arm of the source, in source order; direct
`sendall` responses carry their bytes. -/
inductive CmdAction where
  | nak
  | send (bs : List Nat)
  | wrd
  | gettime
  | settime
  | eebrd
  | eerd
  | eewr
  | dmpaft
  | dmp
  | loop (n : Nat)
  | lps (n : Nat)
  | hilows
  | bardata
  | str
  | ignore
deriving Repr, DecidableEq

/-- The dispatch chain of `process_command`, exactly in source order with
the source's substring tests (`'TEST' in cmd`, …).  Response byte strings:
`\n\r` = 10 13, `OK` = 79 75, `TEST` = 84 69 83 84, etc. -/
def dispatch (cmd : List Char) (raw : List Nat) : CmdAction :=
  if hasSubB [0x12, 0x4D] raw then .nak
  else if hasSub ['T', 'E', 'S', 'T'] cmd then
    .send [10, 13, 84, 69, 83, 84, 10, 13]
  else if hasSub ['W', 'R', 'D'] cmd then .wrd
  else if hasSub ['R', 'X', 'T', 'E', 'S', 'T'] cmd then
    .send [10, 13, 79, 75, 10, 13]
  else if hasSub ['V', 'E', 'R'] cmd then
    .send [10, 13, 79, 75, 10, 13,
           77, 97, 121, 32, 32, 49, 32, 50, 48, 49, 50, 10, 13]
  else if hasSub ['N', 'V', 'E', 'R'] cmd then
    .send [10, 13, 79, 75, 10, 13, 49, 46, 57, 48, 10, 13]
  else if hasSub ['R', 'E', 'C', 'E', 'I', 'V', 'E', 'R', 'S'] cmd then
    .send [10, 13, 79, 75, 10, 13, 1]
  else if hasSub ['G', 'E', 'T', 'T', 'I', 'M', 'E'] cmd then .gettime
  else if hasSub ['S', 'E', 'T', 'T', 'I', 'M', 'E'] cmd then .settime
  else if hasSub ['E', 'E', 'B', 'R', 'D'] cmd then .eebrd
  else if hasSub ['E', 'E', 'R', 'D'] cmd then .eerd
  else if hasSub ['E', 'E', 'W', 'R'] cmd then .eewr
  else if hasSub ['D', 'M', 'P', 'A', 'F', 'T'] cmd then .dmpaft
  else if hasSub ['D', 'M', 'P'] cmd then .dmp
  else if hasSub ['L', 'O', 'O', 'P'] cmd then .loop (parse_count cmd)
  else if hasSub ['L', 'P', 'S'] cmd then .lps (parse_count cmd)
  else if hasSub ['H', 'I', 'L', 'O', 'W', 'S'] cmd then .hilows
  else if hasSub ['B', 'A', 'R', 'D', 'A', 'T', 'A'] cmd then .bardata
  else if hasSub ['B', 'A', 'R', 'R', 'E', 'A', 'D'] cmd then
    .send ([6, 0, 0] ++ crcBytes (crc16 [0, 0]))
  else if hasSub ['R', 'X', 'C', 'H', 'E', 'C', 'K'] cmd then
    .send [10, 13, 79, 75, 10, 13,
           49, 50, 48, 48, 48, 32, 53, 32, 48, 32, 50, 53, 48, 48, 32, 49,
           48, 10, 13]
  else if hasSub ['S', 'T', 'R'] cmd then .str
  else if hasSub ['C', 'L', 'R', 'L', 'O', 'G'] cmd then .send [6]
  else if hasSub ['N', 'E', 'W', 'S', 'E', 'T', 'U', 'P'] cmd then .send [6]
  else .ignore

/-- `handle_gettime`: six clock bytes
`[sec, min, hour, day, month, year−1900]` plus big-endian CRC, after the
ACK.  `bytearray` assignment raises for a value outside 0–255 (e.g. a year
beyond 2155) *before* anything is sent: `(sent, raised)`. -/
def handle_gettime (t : LocalTime) : List Nat × Bool :=
  match setByte t.tm_sec, setByte t.tm_min, setByte t.tm_hour,
        setByte t.tm_mday, setByte t.tm_mon, setByte (t.tm_year - 1900) with
  | some a, some b, some c, some d, some e, some f =>
    ([6] ++ [a, b, c, d, e, f] ++ crcBytes (crc16 [a, b, c, d, e, f]), false)
  | _, _, _, _, _, _ => ([], true)

/-- `handle_settime`: ACK, then read 8 bytes (`payload`; `none` or a wrong
length = the inner `try` swallowing the failure, nothing further sent);
on a CRC match answer ACK, else 0x18. -/
def handle_settime (payload : Option (List Nat)) : List Nat × Bool :=
  ([6] ++
    (match payload with
     | some d =>
       if d.length = 8 then
         if crc16 (d.take 6) = d.getD 6 0 * 256 + d.getD 7 0 then [6] else [24]
       else []
     | none => []), false)

/-- The environment a `process_command` call runs against: the clock, the
emulator state, and — for the handlers whose internals are out of scope
here (EEPROM text protocol, BARDATA/STR text blocks, the archive download,
which is verified separately via `download_exchange`) — their abstract
outcome `(bytes sent, raised an exception)`.  Quantifying over these
outcomes makes the exception-handling theorem cover any exception a
handler can raise. -/
structure CmdEnv where
  station_type : Int := 16
  nowTm : LocalTime := {}
  st : EmuState := {}
  now : Int := 0
  lt : Int → LocalTime := fun _ => {}
  intr : Nat → Bool := fun _ => false
  settime_payload : Option (List Nat) := none
  eebrd_out : List Nat := []
  eerd_out : List Nat := []
  eewr_out : List Nat := []
  dmpaft_out : List Nat × Bool := ([], false)
  dmp_out : List Nat × Bool := ([], false)
  bardata_out : List Nat × Bool := ([], false)
  str_out : List Nat × Bool := ([], false)

/-- Run the selected handler: `(bytes sent, raised an exception that
reaches `process_command`'s catch-all)`.  The EEPROM handlers wrap their
whole body in their own `try/except`, so they never raise out;
`handle_loop` catches encoder errors itself; DMP/DMPAFT, BARDATA and STR
can raise (e.g. `pack_archive_record` on an out-of-range record), so their
outcome is the abstract pair. -/
def run_handler : CmdAction → CmdEnv → List Nat × Bool
  | .nak, _ => ([0x21], false)
  | .send bs, _ => (bs, false)
  | .wrd, env =>
    match setByte env.station_type with
    | some b => ([6, b], false)
    | none => ([], true)
  | .gettime, env => handle_gettime env.nowTm
  | .settime, env => handle_settime env.settime_payload
  | .eebrd, env => (env.eebrd_out, false)
  | .eerd, env => (env.eerd_out, false)
  | .eewr, env => (env.eewr_out, false)
  | .dmpaft, env => env.dmpaft_out
  | .dmp, env => env.dmp_out
  | .loop n, env =>
    ((handle_loop_sends env.st env.now n env.lt env.intr).flatten, false)
  | .lps n, env =>
    ((handle_loop_sends env.st env.now n env.lt env.intr).flatten, false)
  | .hilows, _ =>
    ([6] ++ List.replicate 436 0 ++ crcBytes (crc16 (List.replicate 436 0)),
      false)
  | .bardata, env => env.bardata_out
  | .str, env => env.str_out
  | .ignore, _ => ([], false)

/-- `process_command`: dispatch and run the handler inside the catch-all
`try/except`; an exception is logged and answered (best-effort) with the
single NAK byte 0x21, and the function returns normally either way — its
total return type `List Nat` is the model of "the per-connection handler
does not unwind". -/
def process_command (cmd : List Char) (raw : List Nat) (env : CmdEnv) :
    List Nat :=
  let out := run_handler (dispatch cmd raw) env
  if out.2 then out.1 ++ [0x21] else out.1

/-- Inversion for `packU16LE`. -/
theorem packU16LE_eq_some (v : Int) (x : Nat × Nat) (h : packU16LE v = some x) :
    0 ≤ v ∧ v < 65536 ∧ x.1 = v.toNat % 256 ∧ x.2 = v.toNat / 256 := by
  unfold packU16LE at h
  split at h
  · cases h
    next hv => exact ⟨hv.1, hv.2, rfl, rfl⟩
  · cases h

/-- Inversion for `packI16LE`. -/
theorem packI16LE_eq_some (v : Int) (x : Nat × Nat) (h : packI16LE v = some x) :
    -32768 ≤ v ∧ v < 32768 ∧
    x.1 = (v % 65536).toNat % 256 ∧ x.2 = (v % 65536).toNat / 256 := by
  unfold packI16LE at h
  split at h
  · cases h
    next hv => exact ⟨hv.1, hv.2, rfl, rfl⟩
  · cases h

/-- Inversion for `setByte`. -/
theorem setByte_eq_some (v : Int) (x : Nat) (h : setByte v = some x) :
    0 ≤ v ∧ v < 256 ∧ x = v.toNat := by
  unfold setByte at h
  split at h
  · cases h
    next hv => exact ⟨hv.1, hv.2, rfl⟩
  · cases h

/-- Every slot is 52 bytes when the packed records are. -/
theorem page_slot_length (recs : List (List Nat)) (idx i : Nat)
    (h52 : ∀ l ∈ recs, l.length = 52) : (page_slot recs idx i).length = 52 := by
  unfold page_slot
  split
  · next hlt =>
    rw [List.getD_eq_getElem _ _ hlt]
    exact h52 _ (List.getElem_mem hlt)
  · simp

/-- Closed form of the page loop: with `n` pages scheduled, the pages sent
are exactly pages `start, start+1, …`, one more than the number of leading
non-ESC ack bytes (capped at `n`). -/
theorem send_pages_eq (recs : List (List Nat)) :
    ∀ n acks start, send_pages recs acks start n =
      (List.range (min n ((acks.takeWhile (fun a => a ≠ 27)).length + 1))).map
        (fun j => build_page recs (start + j)) := by
  intro n
  induction n with
  | zero => intro acks start; simp [send_pages]
  | succ n ih =>
    intro acks start
    match acks with
    | [] => simp [send_pages, show List.range 1 = [0] from rfl]
    | a :: rest =>
      by_cases ha : a = 27
      · simp [send_pages, ha, show List.range 1 = [0] from rfl]
      · rw [show send_pages recs (a :: rest) start (n + 1)
              = build_page recs start :: send_pages recs rest (start + 1) n by
            simp [send_pages, ha]]
        rw [ih rest (start + 1)]
        have htw : ((a :: rest).takeWhile (fun a => a ≠ 27)).length
            = (rest.takeWhile (fun a => a ≠ 27)).length + 1 := by
          simp [List.takeWhile_cons, ha]
        rw [htw]
        have hmin : min (n + 1) ((rest.takeWhile (fun a => a ≠ 27)).length + 1 + 1)
            = min n ((rest.takeWhile (fun a => a ≠ 27)).length + 1) + 1 := by
          omega
        rw [hmin, List.range_succ_eq_map, List.map_cons, List.map_map]
        congr 1
        apply List.map_congr_left
        intro j hj
        show build_page recs (start + 1 + j) = build_page recs (start + (j + 1))
        congr 1
        omega

/-- C2 counterexample: a record stamped `requested_ts + 1 = 101` satisfies
`dateTime > requested_ts = 100`, so the claim says it is selected — but the
engine passes `requested_ts + 1` to the store (whose contract is strictly
greater-than), and the record is not selected. -/
theorem C2_counterexample :
    download_records [{ dateTime := some 101 }] 100 = [] ∧ (100 : Int) < 101 := by
  constructor
  · rfl
  · decide

/-- C2 (amended): the engine selects exactly the records with
`dateTime > requested_ts + 1` (not `> requested_ts`), in ascending order,
capped at 50 000 — every selected record is newer than `requested_ts + 1`,
the selection is sorted, at most 50 000 long, and complete whenever the cap
is not hit; and whenever the six timestamp bytes are `(0,0)` or fail to
decode, the requested timestamp is `now − 2560·interval_minutes·60`. -/
theorem C2_dmpaft_selection (store : List Obs) (ts : Int) (b : List Nat)
    (now intervalMins : Int) (mk : Nat → Nat → Nat → Nat → Nat → Int)
    (hsorted : store.Pairwise (fun r s => r.dateTime.getD 0 ≤ s.dateTime.getD 0))
    (hb : (b.getD 0 0 + 256 * b.getD 1 0 = 0 ∧ b.getD 2 0 + 256 * b.getD 3 0 = 0) ∨
      validDateTime ((b.getD 0 0 + 256 * b.getD 1 0) >>> 9 + 2000)
        (((b.getD 0 0 + 256 * b.getD 1 0) >>> 5) &&& 0x0F)
        ((b.getD 0 0 + 256 * b.getD 1 0) &&& 0x1F)
        ((b.getD 2 0 + 256 * b.getD 3 0) / 100)
        ((b.getD 2 0 + 256 * b.getD 3 0) % 100) = false) :
    (∀ r ∈ download_records store ts, ts + 1 < r.dateTime.getD 0) ∧
    (download_records store ts).Pairwise
      (fun r s => r.dateTime.getD 0 ≤ s.dateTime.getD 0) ∧
    (download_records store ts).length ≤ 50000 ∧
    ((download_records store ts).length < 50000 →
      ∀ r ∈ store, ts + 1 < r.dateTime.getD 0 → r ∈ download_records store ts) ∧
    dmpaft_requested_ts b now intervalMins mk
      = now - 2560 * (intervalMins * 60) := by
  refine ⟨?_, ?_, ?_, ?_, ?_⟩
  · intro r hr
    have hr2 := List.mem_of_mem_take hr
    have := List.mem_filter.mp hr2
    simpa using this.2
  · exact ((hsorted.filter _).sublist (List.take_sublist _ _))
  · unfold download_records
    rw [List.length_take]
    exact min_le_left _ _
  · intro hlt r hr hnew
    unfold download_records at hlt ⊢
    rw [List.length_take] at hlt
    have hfull : (genBatchRecords store (ts + 1)).length < 50000 := by omega
    rw [List.take_of_length_le (by omega)]
    unfold genBatchRecords
    rw [List.mem_filter]
    exact ⟨hr, by simpa using hnew⟩
  · unfold dmpaft_requested_ts
    by_cases hz : b.getD 0 0 + 256 * b.getD 1 0 = 0 ∧ b.getD 2 0 + 256 * b.getD 3 0 = 0
    · rw [if_pos hz]
    · rw [if_neg hz]
      rcases hb with hb | hb
      · exact absurd hb hz
      · rw [if_neg (by rw [hb]; simp)]

/-- Witness for `C2_dmpaft_selection`: a one-record sorted store and the
all-zero timestamp bytes. -/
theorem C2_dmpaft_selection_witness :
    (∀ r ∈ download_records [{ dateTime := some 100 }] 50,
      (50 : Int) + 1 < r.dateTime.getD 0) ∧
    dmpaft_requested_ts [0, 0, 0, 0, 0, 0] 1000 5 (fun _ _ _ _ _ => 0)
      = 1000 - 2560 * (5 * 60) := by
  have h := C2_dmpaft_selection [{ dateTime := some 100 }] 50 [0, 0, 0, 0, 0, 0]
    1000 5 (fun _ _ _ _ _ => 0) (by simp) (Or.inl (by decide))
  exact ⟨h.1, h.2.2.2.2⟩

/-- Extract a middle chunk of an append by its offset and length. -/
theorem take_after_drop (pre mid post : List Nat) (n k : Nat)
    (hpre : pre.length = n) (hmid : mid.length = k) :
    ((pre ++ mid ++ post).drop n).take k = mid := by
  rw [List.append_assoc, List.drop_left' hpre, List.take_left' hmid]

/-- C3 (confirmed): every archive page built by `_download_archive` is
exactly 267 bytes — sequence byte `page_idx % 256`, five 52-byte slots
(real packed records, 0xFF·52 padding past the last record), four 0x00
bytes, and the big-endian CRC-16 of the 265 preceding bytes — and the page
count `num_pages` is the ceiling of `num_records / 5` (stated as: it is the
least `m` with `num_records ≤ 5·m`). -/
theorem C3_archive_page (recs : List (List Nat)) (idx numRecords : Nat)
    (h52 : ∀ l ∈ recs, l.length = 52) :
    (build_page recs idx).length = 267 ∧
    (build_page recs idx).getD 0 0 = idx % 256 ∧
    (∀ i, i < 5 → recs.length ≤ idx * 5 + i →
      ((build_page recs idx).drop (1 + 52 * i)).take 52 = List.replicate 52 255) ∧
    (∀ i, i < 5 → idx * 5 + i < recs.length →
      ((build_page recs idx).drop (1 + 52 * i)).take 52 = recs.getD (idx * 5 + i) []) ∧
    ((build_page recs idx).drop 261).take 4 = [0, 0, 0, 0] ∧
    (build_page recs idx).drop 265 = crcBytes (crc16 ((build_page recs idx).take 265)) ∧
    (numRecords ≤ 5 * num_pages numRecords ∧
      ∀ m, numRecords ≤ 5 * m → num_pages numRecords ≤ m) := by
  have hs0 := page_slot_length recs idx 0 h52
  have hs1 := page_slot_length recs idx 1 h52
  have hs2 := page_slot_length recs idx 2 h52
  have hs3 := page_slot_length recs idx 3 h52
  have hs4 := page_slot_length recs idx 4 h52
  have e_b : build_page recs idx =
      (idx % 256 ::
        (page_slot recs idx 0 ++ page_slot recs idx 1 ++ page_slot recs idx 2 ++
         page_slot recs idx 3 ++ page_slot recs idx 4 ++ [0, 0, 0, 0])) ++
      crcBytes (crc16 (idx % 256 ::
        (page_slot recs idx 0 ++ page_slot recs idx 1 ++ page_slot recs idx 2 ++
         page_slot recs idx 3 ++ page_slot recs idx 4 ++ [0, 0, 0, 0]))) := rfl
  have hlen : (idx % 256 ::
      (page_slot recs idx 0 ++ page_slot recs idx 1 ++ page_slot recs idx 2 ++
       page_slot recs idx 3 ++ page_slot recs idx 4 ++ [0, 0, 0, 0])).length
      = 265 := by
    simp [List.length_append, hs0, hs1, hs2, hs3, hs4]
  have hslot : ∀ i, i < 5 →
      ((build_page recs idx).drop (1 + 52 * i)).take 52 = page_slot recs idx i := by
    intro i hi
    interval_cases i
    · rw [show build_page recs idx =
          [idx % 256] ++ page_slot recs idx 0 ++
          (page_slot recs idx 1 ++ page_slot recs idx 2 ++ page_slot recs idx 3 ++
           page_slot recs idx 4 ++ [0, 0, 0, 0] ++
           crcBytes (crc16 (idx % 256 ::
             (page_slot recs idx 0 ++ page_slot recs idx 1 ++ page_slot recs idx 2 ++
              page_slot recs idx 3 ++ page_slot recs idx 4 ++ [0, 0, 0, 0])))) by
        unfold build_page; simp [List.append_assoc, List.cons_append, List.singleton_append]]
      exact take_after_drop _ _ _ _ _ (by simp) hs0
    · rw [show build_page recs idx =
          (idx % 256 :: page_slot recs idx 0) ++ page_slot recs idx 1 ++
          (page_slot recs idx 2 ++ page_slot recs idx 3 ++
           page_slot recs idx 4 ++ [0, 0, 0, 0] ++
           crcBytes (crc16 (idx % 256 ::
             (page_slot recs idx 0 ++ page_slot recs idx 1 ++ page_slot recs idx 2 ++
              page_slot recs idx 3 ++ page_slot recs idx 4 ++ [0, 0, 0, 0])))) by
        unfold build_page; simp [List.append_assoc, List.cons_append, List.singleton_append]]
      exact take_after_drop _ _ _ _ _ (by simp [hs0]) hs1
    · rw [show build_page recs idx =
          (idx % 256 :: (page_slot recs idx 0 ++ page_slot recs idx 1)) ++
          page_slot recs idx 2 ++
          (page_slot recs idx 3 ++ page_slot recs idx 4 ++ [0, 0, 0, 0] ++
           crcBytes (crc16 (idx % 256 ::
             (page_slot recs idx 0 ++ page_slot recs idx 1 ++ page_slot recs idx 2 ++
              page_slot recs idx 3 ++ page_slot recs idx 4 ++ [0, 0, 0, 0])))) by
        unfold build_page; simp [List.append_assoc, List.cons_append, List.singleton_append]]
      exact take_after_drop _ _ _ _ _ (by simp [hs0, hs1]) hs2
    · rw [show build_page recs idx =
          (idx % 256 :: (page_slot recs idx 0 ++ page_slot recs idx 1 ++
            page_slot recs idx 2)) ++ page_slot recs idx 3 ++
          (page_slot recs idx 4 ++ [0, 0, 0, 0] ++
           crcBytes (crc16 (idx % 256 ::
             (page_slot recs idx 0 ++ page_slot recs idx 1 ++ page_slot recs idx 2 ++
              page_slot recs idx 3 ++ page_slot recs idx 4 ++ [0, 0, 0, 0])))) by
        unfold build_page; simp [List.append_assoc, List.cons_append, List.singleton_append]]
      exact take_after_drop _ _ _ _ _ (by simp [hs0, hs1, hs2]) hs3
    · rw [show build_page recs idx =
          (idx % 256 :: (page_slot recs idx 0 ++ page_slot recs idx 1 ++
            page_slot recs idx 2 ++ page_slot recs idx 3)) ++ page_slot recs idx 4 ++
          ([0, 0, 0, 0] ++
           crcBytes (crc16 (idx % 256 ::
             (page_slot recs idx 0 ++ page_slot recs idx 1 ++ page_slot recs idx 2 ++
              page_slot recs idx 3 ++ page_slot recs idx 4 ++ [0, 0, 0, 0])))) by
        unfold build_page; simp [List.append_assoc, List.cons_append, List.singleton_append]]
      exact take_after_drop _ _ _ _ _ (by simp [hs0, hs1, hs2, hs3]) hs4
  refine ⟨?_, ?_, ?_, ?_, ?_, ?_, ?_, ?_⟩
  · rw [e_b]
    simp only [List.length_append]
    rw [hlen]
    rfl
  · rw [e_b]
    rfl
  · intro i hi hpad
    rw [hslot i hi]
    unfold page_slot
    rw [if_neg (by omega)]
  · intro i hi hreal
    rw [hslot i hi]
    unfold page_slot
    rw [if_pos hreal]
  · rw [show build_page recs idx =
        (idx % 256 :: (page_slot recs idx 0 ++ page_slot recs idx 1 ++
          page_slot recs idx 2 ++ page_slot recs idx 3 ++ page_slot recs idx 4)) ++
        [0, 0, 0, 0] ++
        crcBytes (crc16 (idx % 256 ::
          (page_slot recs idx 0 ++ page_slot recs idx 1 ++ page_slot recs idx 2 ++
           page_slot recs idx 3 ++ page_slot recs idx 4 ++ [0, 0, 0, 0]))) by
      unfold build_page; simp [List.append_assoc, List.cons_append, List.singleton_append]]
    exact take_after_drop _ _ _ _ _ (by simp [hs0, hs1, hs2, hs3, hs4]) rfl
  · rw [e_b, List.drop_left' hlen, List.take_left' hlen]
  · unfold num_pages
    omega
  · intro m hm
    unfold num_pages
    omega

/-- Witness for `C3_archive_page`: the single (empty) page of an empty
record list is 267 bytes with the four zero bytes in place. -/
theorem C3_archive_page_witness :
    (build_page [] 0).length = 267 ∧
    ((build_page [] 0).drop 261).take 4 = [0, 0, 0, 0] := by
  have h := C3_archive_page [] 0 3 (by simp)
  exact ⟨h.1, h.2.2.2.2.1⟩

/-- C4 (confirmed): the engine sends the header first and never a page
without the handshake: nothing follows the header unless the first received
byte is 0x06; the pages sent are exactly pages `0, 1, 2, …`, at most one
more than the number of leading non-0x1B acknowledgement bytes (and no more
than scheduled); so each page beyond the first was preceded by receiving
one byte, and that byte was not 0x1B (ESC terminates the exchange). -/
theorem C4_download_ack_gating (recs : List (List Nat)) (numRecords : Nat)
    (firstAck : Option Nat) (acks : List Nat) :
    (download_exchange recs numRecords firstAck acks).head? =
      some (dmpaft_header (num_pages numRecords)) ∧
    (firstAck ≠ some 6 →
      download_exchange recs numRecords firstAck acks =
        [dmpaft_header (num_pages numRecords)]) ∧
    ((download_exchange recs numRecords firstAck acks).tail =
      if firstAck = some 6 then
        (List.range (min (num_pages numRecords)
          ((acks.takeWhile (fun a => a ≠ 27)).length + 1))).map (build_page recs)
      else []) ∧
    ((download_exchange recs numRecords firstAck acks).tail.length
      ≤ acks.length + 1) ∧
    (∀ i, i + 1 < (download_exchange recs numRecords firstAck acks).tail.length →
      i < acks.length ∧ acks.getD i 0 ≠ 27) := by
  have htw_pref := List.takeWhile_prefix (p := fun a : Nat => a ≠ 27) (l := acks)
  have htw_len : (acks.takeWhile (fun a : Nat => a ≠ 27)).length ≤ acks.length :=
    htw_pref.sublist.length_le
  have htail : (download_exchange recs numRecords firstAck acks).tail
      = if firstAck = some 6 then send_pages recs acks 0 (num_pages numRecords)
        else [] := rfl
  have htail2 : (download_exchange recs numRecords firstAck acks).tail =
      if firstAck = some 6 then
        (List.range (min (num_pages numRecords)
          ((acks.takeWhile (fun a => a ≠ 27)).length + 1))).map (build_page recs)
      else [] := by
    rw [htail]
    by_cases hf : firstAck = some 6
    · rw [if_pos hf, if_pos hf, send_pages_eq]
      apply List.map_congr_left
      intro j hj
      simp
    · rw [if_neg hf, if_neg hf]
  refine ⟨rfl, ?_, htail2, ?_, ?_⟩
  · intro h
    unfold download_exchange
    rw [if_neg h]
  · rw [htail2]
    by_cases hf : firstAck = some 6
    · rw [if_pos hf]
      simp only [List.length_map, List.length_range]
      omega
    · rw [if_neg hf]
      simp
  · intro i hi
    rw [htail2] at hi
    by_cases hf : firstAck = some 6
    · rw [if_pos hf] at hi
      simp only [List.length_map, List.length_range] at hi
      have hitw : i < (acks.takeWhile (fun a : Nat => a ≠ 27)).length := by omega
      have hi_acks : i < acks.length := lt_of_lt_of_le hitw htw_len
      refine ⟨hi_acks, ?_⟩
      have hgetelem := htw_pref.getElem hitw
      have hmem : (acks.takeWhile (fun a : Nat => a ≠ 27))[i] ∈
          acks.takeWhile (fun a : Nat => a ≠ 27) := List.getElem_mem hitw
      have hne := List.mem_takeWhile_imp hmem
      rw [List.getD_eq_getElem _ _ hi_acks, ← hgetelem]
      simpa using hne
    · rw [if_neg hf] at hi
      simp at hi

/-- C1 counterexample: the claim says the encoders return a 99-byte buffer
for *every* observation map, but an observation with `outTemp = 10000.0` °F
scales to 10000·10 = 100000, outside the signed 16-bit field at offsets
12–13, so `struct.pack_into('<h', ...)` raises and neither encoder returns
a buffer at all. -/
theorem C1_counterexample :
    create_davis_loop_packet (some { outTemp := some 10000 }) 7
      (fun _ => ({} : LocalTime)) = none ∧
    create_davis_loop2_packet (some { outTemp := some 10000 }) 7 = none := by
  constructor <;> rfl

/-- C1 (amended): whenever the LOOP (resp. LOOP2) encoder does return a
buffer — i.e. every scaled field fits its wire field, so no write raises —
the buffer is exactly 99 bytes, starts with "LOO", has packet type 0
(resp. 1) at offset 4, the terminators 0x0A 0x0D at offsets 95–96, and the
big-endian CCITT CRC-16 of bytes 0–96 at offsets 97–98. -/
theorem C1_loop_framing (pOpt : Option Obs) (now : Int) (lt : Int → LocalTime)
    (buf buf2 : List Nat) :
    (create_davis_loop_packet pOpt now lt = some buf →
      buf.length = 99 ∧ buf.take 3 = [76, 79, 79] ∧ buf.getD 4 0 = 0 ∧
      buf.getD 95 0 = 0x0A ∧ buf.getD 96 0 = 0x0D ∧
      buf.drop 97 = crcBytes (crc16 (buf.take 97))) ∧
    (create_davis_loop2_packet pOpt now = some buf2 →
      buf2.length = 99 ∧ buf2.take 3 = [76, 79, 79] ∧ buf2.getD 4 0 = 1 ∧
      buf2.getD 95 0 = 0x0A ∧ buf2.getD 96 0 = 0x0D ∧
      buf2.drop 97 = crcBytes (crc16 (buf2.take 97))) := by
  constructor
  · intro h
    unfold create_davis_loop_packet at h
    dsimp only [] at h
    split at h
    · cases h; exact ⟨rfl, rfl, rfl, rfl, rfl, rfl⟩
    · cases h
  · intro h
    unfold create_davis_loop2_packet at h
    dsimp only [] at h
    split at h
    · cases h; exact ⟨rfl, rfl, rfl, rfl, rfl, rfl⟩
    · cases h

/-- Witness for `C1_loop_framing`: both encoders succeed on the empty
live-packet cache (the built-in default observation), and the framing
properties hold on the resulting concrete buffers. -/
theorem C1_loop_framing_witness :
    ((create_davis_loop_packet none 0 (fun _ => ({} : LocalTime))).getD []).length = 99 ∧
    ((create_davis_loop_packet none 0 (fun _ => ({} : LocalTime))).getD []).take 3
      = [76, 79, 79] ∧
    ((create_davis_loop2_packet none 0).getD []).length = 99 ∧
    ((create_davis_loop2_packet none 0).getD []).getD 4 0 = 1 := by
  obtain ⟨h1, h2⟩ := C1_loop_framing none 0 (fun _ => ({} : LocalTime))
    ((create_davis_loop_packet none 0 (fun _ => ({} : LocalTime))).getD [])
    ((create_davis_loop2_packet none 0).getD [])
  have p1 := h1 rfl
  have p2 := h2 rfl
  exact ⟨p1.1, p1.2.1, p2.1, p2.2.2.1⟩

/-- C5 counterexample: the cache is refreshed (`handle_new_loop`) at the
very instant `now = 1000` of the LOOP request, so `now − lastLoopReceived
= 0 ≤ threshold = 500`, yet — because the code computes the lag from the
observation's own `dateTime` field (here 0) — the watchdog disconnects
the client, contradicting the claim. -/
theorem C5_counterexample :
    watchdog_step
      (handle_new_loop { max_lag_threshold := 500, max_lag_action := 1 }
        { dateTime := some 0 } 1000) 1000 = WatchdogVerdict.disconnect ∧
    (1000 : Int) -
      (handle_new_loop { max_lag_threshold := 500, max_lag_action := 1 }
        { dateTime := some 0 } 1000).last_update_time = 0 := by
  exact ⟨rfl, rfl⟩

/-- C5 (amended): the watchdog lag is `now − dateTime` of the cached
observation itself (0 when the field is absent) and is independent of the
cache's publication timestamp `last_update_time`; the configured action is
applied (verdict ≠ stream) exactly when the threshold is positive, a cached
packet exists, that lag exceeds the threshold, and the action is 1
(disconnect) or 2 (kill). -/
theorem C5_watchdog_lag (st : EmuState) (now lu : Int) :
    watchdog_step { st with last_update_time := lu } now = watchdog_step st now ∧
    (watchdog_step st now ≠ WatchdogVerdict.stream ↔
      0 < st.max_lag_threshold ∧ ∃ p, st.current_loop_packet = some p ∧
        st.max_lag_threshold < now - p.dateTime.getD 0 ∧
        (st.max_lag_action = 1 ∨ st.max_lag_action = 2)) := by
  refine ⟨rfl, ?_⟩
  unfold watchdog_step
  by_cases hth : 0 < st.max_lag_threshold
  · cases hp : st.current_loop_packet with
    | none => simp [hth, hp]
    | some p =>
      by_cases hlag : st.max_lag_threshold < now - p.dateTime.getD 0
      · by_cases h2 : st.max_lag_action = 2
        · simp [hth, hp, hlag, h2]
        · by_cases h1 : st.max_lag_action = 1
          · simp [hth, hp, hlag, h1, h2]
          · simp [hth, hp, hlag, h1, h2]
      · simp [hth, hp, hlag]
  · simp [hth]

/-- C10 (confirmed): with an empty live-packet cache, whatever the
configured threshold and action, the watchdog verdict is `stream` (it never
disconnects or kills), and `handle_loop` sends the ACK `0x06` followed by
well-formed 99-byte LOOP packets built from the default observation. -/
theorem C10_empty_cache_loop (lu th act now : Int) (count : Nat)
    (lt : Int → LocalTime) (intr : Nat → Bool) :
    watchdog_step ⟨none, lu, th, act⟩ now = WatchdogVerdict.stream ∧
    (handle_loop_sends ⟨none, lu, th, act⟩ now count lt intr).head? = some [6] ∧
    ∀ b ∈ (handle_loop_sends ⟨none, lu, th, act⟩ now count lt intr).tail,
      b.length = 99 ∧ b.take 3 = [76, 79, 79] ∧ b.getD 4 0 = 0 ∧
      b.getD 95 0 = 10 ∧ b.getD 96 0 = 13 ∧
      b.drop 97 = crcBytes (crc16 (b.take 97)) := by
  have h0 : watchdog_step ⟨none, lu, th, act⟩ now = WatchdogVerdict.stream := by
    unfold watchdog_step
    split <;> rfl
  have hP : ∀ b, create_davis_loop_packet none now lt = some b →
      b.length = 99 ∧ b.take 3 = [76, 79, 79] ∧ b.getD 4 0 = 0 ∧
      b.getD 95 0 = 10 ∧ b.getD 96 0 = 13 ∧
      b.drop 97 = crcBytes (crc16 (b.take 97)) := by
    intro b h
    unfold create_davis_loop_packet at h
    dsimp only [] at h
    split at h
    · cases h; exact ⟨rfl, rfl, rfl, rfl, rfl, rfl⟩
    · cases h
  have key : ∀ n i, ∀ b ∈ loop_packets none now lt intr n i,
      b.length = 99 ∧ b.take 3 = [76, 79, 79] ∧ b.getD 4 0 = 0 ∧
      b.getD 95 0 = 10 ∧ b.getD 96 0 = 13 ∧
      b.drop 97 = crcBytes (crc16 (b.take 97)) := by
    intro n
    induction n with
    | zero =>
      intro i b hb
      simp only [loop_packets] at hb
      cases hb
    | succ n ih =>
      intro i b hb
      rw [loop_packets] at hb
      by_cases hi : intr i
      · rw [if_pos hi] at hb; cases hb
      · rw [if_neg hi] at hb
        cases hcreate : create_davis_loop_packet none now lt with
        | none => rw [hcreate] at hb; cases hb
        | some bb =>
          rw [hcreate] at hb
          rcases List.mem_cons.mp hb with rfl | hmem
          · exact hP b hcreate
          · exact ih (i + 1) b hmem
  refine ⟨h0, ?_, ?_⟩
  · unfold handle_loop_sends
    rw [h0]
    rfl
  · unfold handle_loop_sends
    rw [h0]
    exact key count 0

/-- `x &&& 0x1F = x % 32`. -/
theorem land_31_eq_mod (x : Nat) : x &&& 31 = x % 32 := by
  have := Nat.and_pow_two_sub_one_eq_mod x 5
  norm_num at this
  omega

/-- `x &&& 0x0F = x % 16`. -/
theorem land_15_eq_mod (x : Nat) : x &&& 15 = x % 16 := by
  have := Nat.and_pow_two_sub_one_eq_mod x 4
  norm_num at this
  omega

/-- `x >>> 5 = x / 32`. -/
theorem shiftr_5_eq_div (x : Nat) : x >>> 5 = x / 32 := by
  have := Nat.shiftRight_eq_div_pow x 5
  norm_num at this
  omega

/-- `x >>> 9 = x / 512`. -/
theorem shiftr_9_eq_div (x : Nat) : x >>> 9 = x / 512 := by
  have := Nat.shiftRight_eq_div_pow x 9
  norm_num at this
  omega

/-- C7 (confirmed): whenever `pack_archive_record` returns a buffer, it has
exactly 52 bytes, and decoding the first four bytes with the Davis rules
(`day = date AND 0x1F`, `month = (date >> 5) AND 0x0F`,
`year = (date >> 9) + 2000`, `hour = time div 100`, `minute = time mod 100`,
both fields little-endian 16-bit) recovers the record's original calendar
day, month, year, hour and minute (the fields of
`time.localtime(record['dateTime'])`, which always lie in the stated
calendar ranges). -/
theorem C7_archive_record_roundtrip (r : Obs) (t : LocalTime) (buf : List Nat)
    (hday : 1 ≤ t.tm_mday ∧ t.tm_mday ≤ 31)
    (hmon : 1 ≤ t.tm_mon ∧ t.tm_mon ≤ 12)
    (hhour : 0 ≤ t.tm_hour ∧ t.tm_hour ≤ 23)
    (hmin : 0 ≤ t.tm_min ∧ t.tm_min ≤ 59)
    (h : pack_archive_record r t = some buf) :
    buf.length = 52 ∧
    (buf.getD 0 0 + 256 * buf.getD 1 0) &&& 0x1F = t.tm_mday.toNat ∧
    ((buf.getD 0 0 + 256 * buf.getD 1 0) >>> 5) &&& 0x0F = t.tm_mon.toNat ∧
    ((buf.getD 0 0 + 256 * buf.getD 1 0) >>> 9) + 2000 = t.tm_year.toNat ∧
    (buf.getD 2 0 + 256 * buf.getD 3 0) / 100 = t.tm_hour.toNat ∧
    (buf.getD 2 0 + 256 * buf.getD 3 0) % 100 = t.tm_min.toNat := by
  unfold pack_archive_record at h
  dsimp only [] at h
  split at h
  case _ dts tms otA otH otL rn rrr bar rad itm ihb ohb wsb wgb dcb uvb etb
      hsol huv frb h1 h2 h3 h4 h5 h6 h7 h8 h9 h10 h11 h12 h13 h14 h15 h16 h17
      h18 h19 h20 =>
    cases h
    obtain ⟨hd0, hd1, hd2, hd3⟩ := packU16LE_eq_some _ _ h1
    obtain ⟨ht0, ht1, ht2, ht3⟩ := packU16LE_eq_some _ _ h2
    refine ⟨rfl, ?_, ?_, ?_, ?_, ?_⟩ <;>
      simp only [List.getD_cons_zero, List.getD_cons_succ, hd2, hd3, ht2, ht3,
        land_31_eq_mod, land_15_eq_mod, shiftr_5_eq_div, shiftr_9_eq_div] <;>
      omega
  case _ => cases h

/-- Witness for `C7_archive_record_roundtrip`: a record stamped
2024-06-01 12:30 packs successfully, and its Davis date/time decode back to
that calendar instant. -/
theorem C7_archive_record_roundtrip_witness :
    ((pack_archive_record {} ⟨2024, 6, 1, 12, 30, 0⟩).getD []).length = 52 ∧
    (((pack_archive_record {} ⟨2024, 6, 1, 12, 30, 0⟩).getD []).getD 0 0 +
      256 * ((pack_archive_record {} ⟨2024, 6, 1, 12, 30, 0⟩).getD []).getD 1 0)
        &&& 0x1F = (1 : Int).toNat := by
  have h := C7_archive_record_roundtrip {} ⟨2024, 6, 1, 12, 30, 0⟩
    ((pack_archive_record {} ⟨2024, 6, 1, 12, 30, 0⟩).getD [])
    (by constructor <;> decide) (by constructor <;> decide)
    (by constructor <;> decide) (by constructor <;> decide) rfl
  exact ⟨h.1, h.2.1⟩

/-- C6 counterexample: with `outTemp` missing, the LOOP encoder writes 0
(bytes `00 00` at offsets 12–13), not the signed-16-bit dash sentinel 32767
(`FF 7F`), while still returning a buffer — so the claim "the packet
encoders write the dash sentinel, never 0" is false for the LOOP encoder. -/
theorem C6_counterexample :
    ((create_davis_loop_packet (some {}) 0 (fun _ => ({} : LocalTime))).getD
      []).getD 12 0 = 0 ∧
    ((create_davis_loop_packet (some {}) 0 (fun _ => ({} : LocalTime))).getD
      []).getD 13 0 = 0 ∧
    (create_davis_loop_packet (some {}) 0
      (fun _ => ({} : LocalTime))).isSome = true :=
  ⟨rfl, rfl, rfl⟩

/-- C6 (amended): dash-sentinel encoding holds in the *archive record*
packer, with the source's per-field dash values: missing `outTemp` encodes
32767 / −32768 / 32767 (low/high/low fields), missing `inTemp` and
`radiation` encode 32767, missing humidities, `windSpeed` and `UV` encode
255, missing rain counters (`rain`, `rainRate`) encode 0 — but missing
`windGust` and `ET` also encode 0 (not 0xFF), and the LOOP encoder encodes
a missing `outTemp` (like its other missing numeric fields) as 0. -/
theorem C6_dash_sentinels (r : Obs) (t : LocalTime) (buf : List Nat) (p : Obs)
    (now : Int) (lt : Int → LocalTime) (buf2 : List Nat)
    (h : pack_archive_record r t = some buf)
    (h2 : create_davis_loop_packet (some p) now lt = some buf2) :
    (r.outTemp = none → (buf.drop 4).take 2 = [255, 127] ∧
      (buf.drop 6).take 2 = [0, 128] ∧ (buf.drop 8).take 2 = [255, 127]) ∧
    (r.inTemp = none → (buf.drop 20).take 2 = [255, 127]) ∧
    (r.radiation = none → (buf.drop 16).take 2 = [255, 127]) ∧
    (r.inHumidity = none → buf.getD 22 0 = 255) ∧
    (r.outHumidity = none → buf.getD 23 0 = 255) ∧
    (r.windSpeed = none → buf.getD 24 0 = 255) ∧
    (r.UV = none → buf.getD 28 0 = 255) ∧
    (r.rain = none → (buf.drop 10).take 2 = [0, 0]) ∧
    (r.rainRate = none → (buf.drop 12).take 2 = [0, 0]) ∧
    (r.windGust = none → buf.getD 25 0 = 0) ∧
    (r.ET = none → buf.getD 29 0 = 0) ∧
    (p.outTemp = none → (buf2.drop 12).take 2 = [0, 0]) := by
  unfold pack_archive_record at h
  dsimp only [] at h
  split at h
  case _ dts tms otA otH otL rn rrr bar rad itm ihb ohb wsb wgb dcb uvb etb
      hsol huv frb h1 h2' h3 h4 h5 h6 h7 h8 h9 h10 h11 h12 h13 h14 h15 h16 h17
      h18 h19 h20 =>
    cases h
    refine ⟨?_, ?_, ?_, ?_, ?_, ?_, ?_, ?_, ?_, ?_, ?_, ?_⟩
    · intro hm
      rw [hm] at h3 h4 h5
      rw [show packI16LE (getScaled none 10 32767) = some (255, 127) from rfl] at h3 h5
      rw [show packI16LE (getScaled none 10 (-32768)) = some (0, 128) from rfl] at h4
      cases h3; cases h4; cases h5
      exact ⟨rfl, rfl, rfl⟩
    · intro hm
      rw [hm] at h10
      rw [show packI16LE (getScaled none 10 32767) = some (255, 127) from rfl] at h10
      cases h10
      rfl
    · intro hm
      rw [hm] at h9
      rw [show packU16LE (getScaled none 1 32767) = some (255, 127) from rfl] at h9
      cases h9
      rfl
    · intro hm
      rw [hm] at h11
      rw [show setByte (getScaled none 1 255) = some 255 from rfl] at h11
      cases h11
      rfl
    · intro hm
      rw [hm] at h12
      rw [show setByte (getScaled none 1 255) = some 255 from rfl] at h12
      cases h12
      rfl
    · intro hm
      rw [hm] at h13
      rw [show setByte (getScaled none 1 255) = some 255 from rfl] at h13
      cases h13
      rfl
    · intro hm
      rw [hm] at h16
      rw [show setByte (getScaled none 10 255) = some 255 from rfl] at h16
      cases h16
      rfl
    · intro hm
      rw [hm] at h6
      rw [show packU16LE (getScaled none 100 0) = some (0, 0) from rfl] at h6
      cases h6
      rfl
    · intro hm
      rw [hm] at h7
      rw [show packU16LE (getScaled none 100 0) = some (0, 0) from rfl] at h7
      cases h7
      rfl
    · intro hm
      rw [hm] at h14
      rw [show setByte (getScaled none 1 0) = some 0 from rfl] at h14
      cases h14
      rfl
    · intro hm
      rw [hm] at h17
      rw [show setByte (getScaled none 1000 0) = some 0 from rfl] at h17
      cases h17
      rfl
    · intro hm
      unfold create_davis_loop_packet at h2
      dsimp only [Option.getD_some] at h2
      rw [hm] at h2
      split at h2
      case _ bar' it' ihb' ot' wsb' wd' ohb' rr' uvb' rad' dr' mr' yr' frb' sr'
          ss' g1 g2 g3 g4 g5 g6 g7 g8 g9 g10 g11 g12 g13 g14 g15 g16 =>
        cases h2
        rw [show packI16LE (if getVal none ≠ 0 then getVal none * 10 else 0)
              = some (0, 0) from rfl] at g4
        cases g4
        rfl
      case _ => cases h2
  case _ => cases h

/-- Witness for `C6_dash_sentinels`: on a record / observation with every
field missing, the archive packer writes the outside-temperature dash
`FF 7F` at offsets 4–5 and 0 for the missing wind gust at offset 25. -/
theorem C6_dash_sentinels_witness :
    (((pack_archive_record {} ⟨2024, 6, 1, 12, 30, 0⟩).getD []).drop 4).take 2
      = [255, 127] ∧
    ((pack_archive_record {} ⟨2024, 6, 1, 12, 30, 0⟩).getD []).getD 25 0 = 0 := by
  have h := C6_dash_sentinels {} ⟨2024, 6, 1, 12, 30, 0⟩
    ((pack_archive_record {} ⟨2024, 6, 1, 12, 30, 0⟩).getD []) {} 0
    (fun _ => ({} : LocalTime))
    ((create_davis_loop_packet (some {}) 0 (fun _ => ({} : LocalTime))).getD [])
    rfl rfl
  exact ⟨(h.1 rfl).1, h.2.2.2.2.2.2.2.2.2.1 rfl⟩

/-- C8: the command line `RXTEST` is answered with `\n\rTEST\n\r`, not the
documented `\n\rOK\n\r`: the dispatch chain tests `'TEST' in cmd` *before*
`'RXTEST' in cmd`, and `RXTEST` contains `TEST` as a substring, so the
dedicated RXTEST branch (which does send `\n\rOK\n\r`) is unreachable. -/
theorem C8_rxtest_shadowed_by_test :
    dispatch ['R', 'X', 'T', 'E', 'S', 'T'] [82, 88, 84, 69, 83, 84]
      = CmdAction.send [10, 13, 84, 69, 83, 84, 10, 13] ∧
    process_command ['R', 'X', 'T', 'E', 'S', 'T'] [82, 88, 84, 69, 83, 84] {}
      = [10, 13, 84, 69, 83, 84, 10, 13] ∧
    [10, 13, 84, 69, 83, 84, 10, 13] ≠ ([10, 13, 79, 75, 10, 13] : List Nat) := by
  refine ⟨by decide, by decide, by decide⟩

/-- C9 (confirmed): whatever command arrives and whatever its handler does,
`process_command` returns normally (it is a total function into the sent
bytes — the connection loop continues), and when the handler raises, the
bytes it managed to send are followed by exactly the NAK byte 0x21. -/
theorem C9_handler_exception_naks (cmd : List Char) (raw : List Nat)
    (env : CmdEnv) :
    ((run_handler (dispatch cmd raw) env).2 = true →
      process_command cmd raw env
        = (run_handler (dispatch cmd raw) env).1 ++ [0x21]) ∧
    ((run_handler (dispatch cmd raw) env).2 = false →
      process_command cmd raw env = (run_handler (dispatch cmd raw) env).1) := by
  constructor <;> intro h <;> simp [process_command, h]

/-- A concrete exception path: GETTIME in year 2200 (`year − 1900 = 300`
overflows the payload byte, raising `ValueError` before any send), so the
client receives exactly the NAK 0x21. -/
theorem gettime_year_overflow_naks :
    process_command ['G', 'E', 'T', 'T', 'I', 'M', 'E'] [71, 69, 84, 84, 73, 77, 69]
      { nowTm := ⟨2200, 6, 1, 12, 30, 0⟩ } = [0x21] := by
  decide

end WLIP
